import Mathlib

/-!
# Double-entry bookkeeping engine: shallow embedding

This file embeds the accounting core of the repository (the Express routers
for `/api/accounts` and `/api/reports`, together with the Postgres schema for
`accounts`, `transactions` and `transaction_entries`) as executable Lean
definitions, and settles the spec claims against them.

Monetary amounts (`DECIMAL(15,2)` columns, JavaScript numbers) are modelled
as rationals `Rat`; the balance tolerance `0.01` of the source becomes
`1/100`. SQL `NULL` propagation of empty aggregates is modelled with
`Option`; the JavaScript `|| 0` coercion becomes `Option.getD 0`.
-/

namespace SmartLogistic

/-- Account type, per the `CHECK (account_type IN (...))` constraint of the
`accounts` table in the schema. -/
inductive AccountType where
  | asset
  | liability
  | equity
  | revenue
  | expense
  deriving Repr, DecidableEq

/-- A row of the `accounts` table (the columns the accounting routes read,
plus `parent_account_id`, whose self-referencing foreign key
`REFERENCES accounts(id)` constrains the delete route). -/
structure Account where
  id : Nat
  account_number : String
  account_name : String
  account_type : AccountType
  parent_account_id : Option Nat
  deriving Repr, DecidableEq

/-- A row of the `transactions` table (the columns the accounting routes
read; `date` is abstracted to a natural number preserving order). -/
structure Txn where
  id : Nat
  transaction_type : String
  description : String
  date : Nat
  deriving Repr, DecidableEq

/-- A row of the `transaction_entries` table. The posting route always
writes concrete numbers (`entry.debit_amount || 0`), so the amount columns
are non-null here. -/
structure Entry where
  id : Nat
  transaction_id : Nat
  account_id : Nat
  debit_amount : Rat
  credit_amount : Rat
  deriving Repr, DecidableEq

/-- The journal store: the three accounting tables. -/
structure DB where
  accounts : List Account
  transactions : List Txn
  entries : List Entry
  deriving Repr, DecidableEq

/-- Query `SELECT ... FROM transaction_entries WHERE account_id = $1`. -/
def entriesFor (db : DB) (accId : Nat) : List Entry :=
  db.entries.filter (fun e => e.account_id == accId)

/-- The balance query of `GET /api/accounts/balance/:id`:
`SELECT SUM(COALESCE(credit_amount, 0)) - SUM(COALESCE(debit_amount, 0)) as
balance FROM transaction_entries WHERE account_id = $1`.
`SUM` over zero rows is SQL `NULL`, hence the `Option`. -/
def balanceQuery (db : DB) (accId : Nat) : Option Rat :=
  match entriesFor db accId with
  | [] => none
  | es => some (((es.map Entry.credit_amount).sum) - ((es.map Entry.debit_amount).sum))

/-- The JSON `balance` field returned by `GET /api/accounts/balance/:id`:
`const balance = balanceResult.rows[0].balance || 0`. -/
def computeBalance (db : DB) (accId : Nat) : Rat :=
  (balanceQuery db accId).getD 0

/-- Modelled from the spec: `ComputeBalance(accountId)` of §4.3, which the
route does not implement as written — for asset and expense accounts,
balance = sum(debit) − sum(credit); for liability, equity and revenue
accounts, balance = sum(credit) − sum(debit); `none` when the account does
not exist. Used only to compare the convention of the spec with that of the
code. -/
def computeBalanceSpec (db : DB) (accId : Nat) : Option Rat :=
  (db.accounts.find? (fun a => a.id == accId)).map (fun a =>
    let d := ((entriesFor db accId).map Entry.debit_amount).sum
    let c := ((entriesFor db accId).map Entry.credit_amount).sum
    match a.account_type with
    | .asset => d - c
    | .expense => d - c
    | _ => c - d)

/-! ## Posting engine (`POST /api/accounts/transactions`) -/

/-- One element of the `entries` array of the request body:
`{account_id, debit_amount, credit_amount, description}`. The amount fields
may be absent in the JSON (the route applies `|| 0` wherever it reads them),
hence `Option`. -/
structure EntryInput where
  account_id : Nat
  debit_amount : Option Rat
  credit_amount : Option Rat
  deriving Repr, DecidableEq

/-- Coercion `entry.debit_amount || 0`. -/
def EntryInput.dAmt (e : EntryInput) : Rat := e.debit_amount.getD 0

/-- Coercion `entry.credit_amount || 0`. -/
def EntryInput.cAmt (e : EntryInput) : Rat := e.credit_amount.getD 0

/-- The body of `POST /api/accounts/transactions` (the fields the route
validates and uses; `date` defaults server-side when absent, abstracted to a
plain value here). -/
structure PostRequest where
  transaction_type : String
  description : String
  date : Nat
  entries : List EntryInput
  deriving Repr, DecidableEq

/-- The express-validator checks on the request body:
`transaction_type` non-empty, `description` non-empty, and `entries` an
array of length at least 2. -/
def validOk (req : PostRequest) : Prop :=
  req.transaction_type ≠ "" ∧ req.description ≠ "" ∧ 2 ≤ req.entries.length

instance (req : PostRequest) : Decidable (validOk req) := by
  unfold validOk; infer_instance

/-- Reduction `entries.reduce((sum, entry) => sum + (entry.debit_amount || 0), 0)`. -/
def totalDebits (req : PostRequest) : Rat := (req.entries.map EntryInput.dAmt).sum

/-- Reduction `entries.reduce((sum, entry) => sum + (entry.credit_amount || 0), 0)`. -/
def totalCredits (req : PostRequest) : Rat := (req.entries.map EntryInput.cAmt).sum

/-- Outcome of the posting route, as observable in its HTTP response:
the 400 from the express-validator errors array, the 400
`Debits and credits must be equal for double entry` (a fixed message with no
other payload), the 500 from the catch block, or the success JSON with the
generated transaction id. -/
inductive PostResponse where
  | validationError
  | imbalanceError
  | serverError
  | ok (txnId : Nat)
  deriving Repr, DecidableEq

/-- Fresh `SERIAL` id for the `transactions` table. -/
def nextTxnId (db : DB) : Nat := (db.transactions.map Txn.id).foldr max 0 + 1

/-- Fresh `SERIAL` id for the `transaction_entries` table. -/
def nextEntryId (db : DB) : Nat := (db.entries.map Entry.id).foldr max 0 + 1

/-- The `CHECK (transaction_type IN (...))` constraint of the
`transactions` table: a non-null value outside this list makes the
`INSERT INTO transactions` fail. -/
def allowedTxnTypes : List String := ["crv", "cpv", "bpv", "brv", "jv"]

/-- Whether an `accounts` row with the given id exists: the target of the
foreign key `transaction_entries.account_id REFERENCES accounts(id)`. -/
def accountExists (db : DB) (accId : Nat) : Bool :=
  db.accounts.any (fun a => a.id == accId)

/-- The `for (const entry of entries)` loop of the route: one separate
`INSERT INTO transaction_entries` per entry, with no surrounding SQL
transaction. An insert throws either through an injected infrastructure
failure (`failAt` names the insert index) or deterministically through the
foreign key on `account_id` when the referenced account is missing; in both
cases the catch block answers 500 and inserts already performed stay in the
store, as they do under autocommit. -/
def insertEntries (txnId : Nat) (inputs : List EntryInput) (idx : Nat)
    (failAt : Option Nat) (db : DB) : PostResponse × DB :=
  match inputs with
  | [] => (.ok txnId, db)
  | e :: rest =>
    if failAt = some idx ∨ accountExists db e.account_id = false then (.serverError, db)
    else
      insertEntries txnId rest (idx + 1) failAt
        { db with entries := db.entries ++
            [⟨nextEntryId db, txnId, e.account_id, e.dAmt, e.cAmt⟩] }

/-- Route `POST /api/accounts/transactions`: express-validator checks, then the
double-entry totals check with tolerance `0.01`, then the
`INSERT INTO transactions` (insert index 0, which throws on an injected
failure or on the schema `CHECK` when the type is not one of the five
voucher codes), then one `INSERT INTO transaction_entries` per entry
(insert indices 1, 2, ..., each subject to the foreign key on
`account_id`). There is no `BEGIN`/`COMMIT`/`ROLLBACK` in the route: each
insert commits on its own, and a thrown insert aborts the loop but undoes
nothing. -/
def postTransaction (db : DB) (req : PostRequest) (failAt : Option Nat) :
    PostResponse × DB :=
  if ¬ validOk req then (.validationError, db)
  else if 1/100 < |totalDebits req - totalCredits req| then (.imbalanceError, db)
  else if failAt = some 0 ∨ allowedTxnTypes.contains req.transaction_type = false then
    (.serverError, db)
  else
    let tid := nextTxnId db
    insertEntries tid req.entries 1 failAt
      { db with transactions := db.transactions ++
          [{ id := tid, transaction_type := req.transaction_type,
             description := req.description, date := req.date }] }

/-! ## Account deletion (`DELETE /api/accounts/:id`) -/

/-- Outcome of the delete route: the 400
`Cannot delete account with existing transactions`, the 500 of the catch
block (a thrown `DELETE`, such as a foreign-key violation), or the success
JSON. -/
inductive DeleteResponse where
  | conflictError
  | serverError
  | removed
  deriving Repr, DecidableEq

/-- Route `DELETE /api/accounts/:id`: counts `transaction_entries` rows with
`account_id = $1`; if the count is positive, answers 400 and touches
nothing, otherwise runs `DELETE FROM accounts WHERE id = $1`. The delete
statement itself throws on the self-referencing foreign key
`accounts.parent_account_id REFERENCES accounts(id)` whenever a surviving
row still names the deleted id as parent; the statement rolls back (the
account is kept) and the catch block answers 500. -/
def deleteAccount (db : DB) (accId : Nat) : DeleteResponse × DB :=
  if 0 < (entriesFor db accId).length then (.conflictError, db)
  else
    let remaining := db.accounts.filter (fun a => !(a.id == accId))
    if remaining.any (fun a => a.parent_account_id == some accId) then (.serverError, db)
    else (.removed, { db with accounts := remaining })

/-! ## Account ledger (`GET /api/accounts/ledger/:accountId`) -/

/-- The `JOIN transactions t ON te.transaction_id = t.id` of the ledger
query, for one entry row. -/
def txnFor (db : DB) (e : Entry) : Option Txn :=
  db.transactions.find? (fun t => t.id == e.transaction_id)

/-- Column `t.date` of the joined transaction row. -/
def entryDate (db : DB) (e : Entry) : Nat := ((txnFor db e).map Txn.date).getD 0

/-- The `ORDER BY t.date, te.id` comparison of the ledger query. -/
def ledgerLe (db : DB) (e1 e2 : Entry) : Bool :=
  Nat.blt (entryDate db e1) (entryDate db e2)
    || (entryDate db e1 == entryDate db e2 && Nat.ble e1.id e2.id)

/-- Insertion into a list sorted by `le`. -/
def insertSorted (le : Entry → Entry → Bool) (e : Entry) : List Entry → List Entry
  | [] => [e]
  | x :: xs => if le e x then e :: x :: xs else x :: insertSorted le e xs

/-- Sorting by `le` (the ledger sort key `(t.date, te.id)` has unique
`te.id`, so it is a total order and any sorting algorithm realizes the SQL
`ORDER BY`). -/
def sortEntries (le : Entry → Entry → Bool) : List Entry → List Entry
  | [] => []
  | x :: xs => insertSorted le x (sortEntries le xs)

/-- The correlated subquery of the ledger:
`SELECT SUM(COALESCE(debit_amount, 0)) - SUM(COALESCE(credit_amount, 0))
FROM transaction_entries WHERE account_id = $1 AND id <= te.id`
(the JSON row coerces the `NULL` of an empty sum like the rest of the app;
with at least the row itself in range the sum is never empty). -/
def runningBalance (db : DB) (accId : Nat) (rowId : Nat) : Rat :=
  let es := (entriesFor db accId).filter (fun e => Nat.ble e.id rowId)
  ((es.map Entry.debit_amount).sum) - ((es.map Entry.credit_amount).sum)

/-- One row of the ledger response. -/
structure LedgerRow where
  entry_id : Nat
  date : Nat
  debit_amount : Rat
  credit_amount : Rat
  running_balance : Rat
  deriving Repr, DecidableEq

/-- Route `GET /api/accounts/ledger/:accountId`: the entries of the account
joined with
their transactions, ordered by `(t.date, te.id)`, each carrying the
id-bounded running balance. -/
def ledgerRows (db : DB) (accId : Nat) : List LedgerRow :=
  (sortEntries (ledgerLe db)
      ((entriesFor db accId).filter (fun e => (txnFor db e).isSome))).map
    (fun e => ⟨e.id, entryDate db e, e.debit_amount, e.credit_amount,
      runningBalance db accId e.id⟩)

/-! ## Report generator (`/api/reports`) -/

/-- A JSON value as produced by `res.json` in the report routes: the
`totals` objects of the reports hold numbers only; a flag would be a
boolean. -/
inductive JVal where
  | num (q : Rat)
  | bool (b : Bool)
  deriving Repr, DecidableEq

/-- Per-account `COALESCE(SUM(COALESCE(te.debit_amount, 0)), 0)` of the
trial-balance query (`LEFT JOIN`, so an account with no entries gets 0). -/
def accountDebits (db : DB) (accId : Nat) : Rat :=
  ((entriesFor db accId).map Entry.debit_amount).sum

/-- Per-account `COALESCE(SUM(COALESCE(te.credit_amount, 0)), 0)`. -/
def accountCredits (db : DB) (accId : Nat) : Rat :=
  ((entriesFor db accId).map Entry.credit_amount).sum

/-- One row of `GET /api/reports/trial-balance`: the query groups by
account over `accounts LEFT JOIN transaction_entries` (the SQL orders rows
by `account_number`, which does not affect any total below). -/
structure TBRow where
  account_id : Nat
  account_number : String
  total_debits : Rat
  total_credits : Rat
  balance : Rat
  deriving Repr, DecidableEq

/-- The `accounts.rows` of the trial-balance response; `balance` is the
uniform `credit − debit` column of the query. -/
def trialBalanceRows (db : DB) : List TBRow :=
  db.accounts.map (fun a =>
    ⟨a.id, a.account_number, accountDebits db a.id, accountCredits db a.id,
      accountCredits db a.id - accountDebits db a.id⟩)

/-- Reduction `accounts.rows.reduce((sum, row) => sum + parseFloat(row.total_debits), 0)`. -/
def tbTotalDebits (db : DB) : Rat := ((trialBalanceRows db).map TBRow.total_debits).sum

/-- Reduction `accounts.rows.reduce((sum, row) => sum + parseFloat(row.total_credits), 0)`. -/
def tbTotalCredits (db : DB) : Rat := ((trialBalanceRows db).map TBRow.total_credits).sum

/-- The `totals` object of the trial-balance response, key by key:
`{ total_debits, total_credits, net_difference: totalCredits - totalDebits }`. -/
def trialBalanceTotalsJson (db : DB) : List (String × JVal) :=
  [("total_debits", .num (tbTotalDebits db)),
   ("total_credits", .num (tbTotalCredits db)),
   ("net_difference", .num (tbTotalCredits db - tbTotalDebits db))]

/-- Filter `WHERE a.account_type = ...` over the `accounts` table. -/
def accountsOfType (db : DB) (t : AccountType) : List Account :=
  db.accounts.filter (fun a => a.account_type == t)

/-- The balance-sheet `amount` column for asset accounts:
`COALESCE(SUM(te.debit_amount), 0) - COALESCE(SUM(te.credit_amount), 0)`. -/
def debitMinusCredit (db : DB) (accId : Nat) : Rat :=
  accountDebits db accId - accountCredits db accId

/-- The balance-sheet `amount` column for liability and equity accounts:
`COALESCE(SUM(te.credit_amount), 0) - COALESCE(SUM(te.debit_amount), 0)`. -/
def creditMinusDebit (db : DB) (accId : Nat) : Rat :=
  accountCredits db accId - accountDebits db accId

/-- Total `totalAssets` of `GET /api/reports/balance-sheet`. -/
def totalAssets (db : DB) : Rat :=
  ((accountsOfType db .asset).map (fun a => debitMinusCredit db a.id)).sum

/-- Total `totalLiabilities` of `GET /api/reports/balance-sheet`. -/
def totalLiabilities (db : DB) : Rat :=
  ((accountsOfType db .liability).map (fun a => creditMinusDebit db a.id)).sum

/-- Total `totalEquity` of `GET /api/reports/balance-sheet`. -/
def totalEquity (db : DB) : Rat :=
  ((accountsOfType db .equity).map (fun a => creditMinusDebit db a.id)).sum

/-- The `totals` object of the balance-sheet response, key by key. -/
def balanceSheetTotalsJson (db : DB) : List (String × JVal) :=
  [("total_assets", .num (totalAssets db)),
   ("total_liabilities", .num (totalLiabilities db)),
   ("total_equity", .num (totalEquity db)),
   ("total_liabilities_and_equity", .num (totalLiabilities db + totalEquity db))]

/-! ## Income statement (`GET /api/reports/income-statement`)

The route builds its two SQL strings by template-literal concatenation.
The opening single quote before `revenue` (and before `expense`) in the
condition on `account_type` is
never matched by a closing quote in either concatenation branch, so the
statement sent to Postgres lexes as an unterminated string literal. The
string constants below reproduce the concatenation character for character
(`\x27` is the single-quote character, `\x24` the dollar sign). -/

/-- String `revenueQuery` as assembled by the route; the argument tells whether
`start_date || end_date` was truthy. -/
def revenueQuery (hasRange : Bool) : String :=
  "\n      SELECT \n        a.account_name,\n        COALESCE(SUM(te.credit_amount), 0) - COALESCE(SUM(te.debit_amount), 0) as amount\n      FROM accounts a\n      LEFT JOIN transaction_entries te ON a.id = te.account_id\n      LEFT JOIN transactions t ON te.transaction_id = t.id\n      WHERE a.account_type = \x27revenue"
    ++ (if hasRange then " AND t.date BETWEEN \x241 AND \x242" else "")
    ++ "\n      GROUP BY a.id, a.account_name\n    "

/-- String `expenseQuery` as assembled by the route. -/
def expenseQuery (hasRange : Bool) : String :=
  "\n      SELECT \n        a.account_name,\n        COALESCE(SUM(te.debit_amount), 0) - COALESCE(SUM(te.credit_amount), 0) as amount\n      FROM accounts a\n      LEFT JOIN transaction_entries te ON a.id = te.account_id\n      LEFT JOIN transactions t ON te.transaction_id = t.id\n      WHERE a.account_type = \x27expense"
    ++ (if hasRange then " AND t.date BETWEEN \x241 AND \x242" else "")
    ++ "\n      GROUP BY a.id, a.account_name\n    "

/-- String `assetsQuery` of the balance-sheet route, whose quoted literal is
properly closed — included as the contrast witness that the quote counting
below distinguishes the two shapes. -/
def assetsQuery : String :=
  "\n      SELECT \n        a.account_name,\n        (COALESCE(SUM(te.debit_amount), 0) - COALESCE(SUM(te.credit_amount), 0)) as amount\n      FROM accounts a\n      LEFT JOIN transaction_entries te ON a.id = te.account_id\n      WHERE a.account_type = \x27asset\x27\n      GROUP BY a.id, a.account_name\n    "

/-- Number of single-quote characters in a SQL text. None of the queries
here use quote-escaping (`\x27\x27`) or dollar quoting, so a well-formed
statement closes every literal it opens and has an even count; an odd
count means an unterminated string literal, which Postgres rejects. -/
def sqlQuoteCount (s : String) : Nat := s.toList.count (Char.ofNat 39)

/-- Odd single-quote count: the statement has an unterminated string
literal. -/
def hasUnterminatedLiteral (s : String) : Bool := sqlQuoteCount s % 2 == 1

/-! ## Concrete fixtures used by the closed theorems -/

/-- Chart of accounts of Scenario A of the spec: the asset account `1000`
(Cash) and the revenue account `4000` (Sales Revenue), with an empty
journal. -/
def scAInit : DB :=
  { accounts := [⟨1, "1000", "Cash", .asset, none⟩, ⟨2, "4000", "Sales Revenue", .revenue, none⟩]
  , transactions := []
  , entries := [] }

/-- Posting of Scenario A: a CRV debiting Cash 500 and crediting Sales
Revenue 500. -/
def scAReq : PostRequest :=
  { transaction_type := "crv", description := "cash sale", date := 10
  , entries := [⟨1, some 500, none⟩, ⟨2, none, some 500⟩] }

/-- The journal after Scenario A posts successfully. -/
def scADb : DB := (postTransaction scAInit scAReq none).2

/-- An imbalanced posting: debit 500 against credit 400 (Scenario B of the
spec). -/
def reqImb1 : PostRequest :=
  { transaction_type := "crv", description := "bad posting", date := 10
  , entries := [⟨1, some 500, none⟩, ⟨2, none, some 400⟩] }

/-- A second imbalanced posting with different totals: debit 300 against
credit 100. -/
def reqImb2 : PostRequest :=
  { transaction_type := "crv", description := "bad posting", date := 10
  , entries := [⟨1, some 300, none⟩, ⟨2, none, some 100⟩] }

/-- A balanced posting whose entries violate the one-sided convention: two
entries with both amounts non-zero, and one entry with both amounts zero. -/
def reqShape : PostRequest :=
  { transaction_type := "jv", description := "odd shapes", date := 10
  , entries := [⟨1, some 5, some 5⟩, ⟨2, some 5, some 5⟩, ⟨2, some 0, some 0⟩] }

/-- A journal with one posted debit of 500 on the asset account 1 and an
untouched liability account 2: the entry totals do not balance, and account
2 has no referencing entries. -/
def oneEntryDB : DB :=
  { accounts := [⟨1, "1000", "Cash", .asset, none⟩, ⟨2, "2000", "Payable", .liability, none⟩]
  , transactions := [⟨1, "jv", "opening", 5⟩]
  , entries := [⟨1, 1, 1, 500, 0⟩] }

/-- A journal with no entries at all whose account 1 is the parent of
account 2 through `parent_account_id`: account 1 has zero referencing
entries, yet the self-referencing foreign key blocks its deletion. -/
def parentDB : DB :=
  { accounts := [⟨1, "1000", "Cash", .asset, none⟩, ⟨2, "1100", "Petty Cash", .asset, some 1⟩]
  , transactions := []
  , entries := [] }

/-! ## Helper lemmas -/

/-- The entry-insert loop can only answer the 500 of the catch block or the
success payload, never the imbalance 400: that check happened before any
insert. -/
theorem insertEntries_ne_imbalance (txnId : Nat) (inputs : List EntryInput)
    (idx : Nat) (failAt : Option Nat) (db : DB) :
    (insertEntries txnId inputs idx failAt db).1 ≠ .imbalanceError := by
  induction inputs generalizing idx db with
  | nil => simp [insertEntries]
  | cons e rest ih =>
    rw [insertEntries]
    split
    · simp
    · exact ih _ _

/-- With no injected failure the insert loop succeeds whenever every input
references an existing account (the foreign key on `account_id` holds),
appends exactly one entry row per input, and touches no other table. -/
theorem insertEntries_none_spec (txnId : Nat) (inputs : List EntryInput)
    (idx : Nat) (db : DB)
    (hacc : ∀ e ∈ inputs, accountExists db e.account_id = true) :
    (insertEntries txnId inputs idx none db).1 = .ok txnId
    ∧ (insertEntries txnId inputs idx none db).2.entries.length
        = db.entries.length + inputs.length
    ∧ (insertEntries txnId inputs idx none db).2.accounts = db.accounts
    ∧ (insertEntries txnId inputs idx none db).2.transactions = db.transactions := by
  induction inputs generalizing idx db with
  | nil => simp [insertEntries]
  | cons e rest ih =>
    rw [insertEntries]
    rw [if_neg (by simp [hacc e (List.mem_cons_self e rest)])]
    have h := ih (idx + 1)
      { db with entries := db.entries ++ [⟨nextEntryId db, txnId, e.account_id, e.dAmt, e.cAmt⟩] }
      (fun x hx => hacc x (List.mem_cons_of_mem e hx))
    refine ⟨h.1, ?_, h.2.2.1, h.2.2.2⟩
    rw [h.2.1]
    simp [List.length_append]
    omega

/-- Difference of two mapped sums is the sum of pointwise differences. -/
theorem sum_map_sub (l : List Entry) (f g : Entry → Rat) :
    (l.map f).sum - (l.map g).sum = (l.map (fun e => f e - g e)).sum := by
  induction l with
  | nil => simp
  | cons x xs ih =>
    simp only [List.map_cons, List.sum_cons]
    rw [← ih]
    ring

/-- Summing over a filter by a disjunction of mutually exclusive predicates
splits into two sums. -/
theorem sum_filter_disjoint (l : List Entry) (p q : Entry → Bool) (f : Entry → Rat)
    (hpq : ∀ x, p x = true → q x = false) :
    ((l.filter (fun x => p x || q x)).map f).sum
      = ((l.filter p).map f).sum + ((l.filter q).map f).sum := by
  induction l with
  | nil => simp
  | cons x xs ih =>
    by_cases hp : p x = true
    · have hq := hpq x hp
      simp [List.filter_cons, hp, hq, List.sum_cons]
      rw [ih]
      ring
    · have hp' : p x = false := by simpa using hp
      by_cases hqx : q x = true
      · simp [List.filter_cons, hp', hqx, List.sum_cons]
        rw [ih]
        ring
      · have hq' : q x = false := by simpa using hqx
        simp [List.filter_cons, hp', hq']
        exact ih

/-- Grouping-by-account then totalling equals one pass over the entries
whose account is listed, provided account ids are unique. -/
theorem sum_over_accounts (accts : List Account) (ents : List Entry) (f : Entry → Rat)
    (h : (accts.map Account.id).Nodup) :
    (accts.map (fun a => ((ents.filter (fun e => e.account_id == a.id)).map f).sum)).sum
      = ((ents.filter (fun e => (accts.map Account.id).contains e.account_id)).map f).sum := by
  induction accts with
  | nil => simp
  | cons a as ih =>
    rw [List.map_cons, List.nodup_cons] at h
    rw [List.map_cons, List.sum_cons, ih h.2]
    have hfun : (fun e : Entry => ((a :: as).map Account.id).contains e.account_id)
        = fun e => (e.account_id == a.id) || ((as.map Account.id).contains e.account_id) := by
      funext e
      simp only [List.map_cons, List.contains_cons]
    rw [hfun]
    rw [sum_filter_disjoint ents _ _ f ?_]
    intro x hx
    have hxa : x.account_id = a.id := by simpa using hx
    rw [hxa]
    by_contra hc
    have hct : (as.map Account.id).contains a.id = true := by
      cases hv : (as.map Account.id).contains a.id
      · exact absurd hv hc
      · rfl
    have hm : a.id ∈ List.map Account.id as := by simpa using hct
    exact h.1 hm

/-- Evaluation of the Scenario A posting: it succeeds and writes one
transaction row and two entry rows. -/
theorem scA_post_eq :
    postTransaction scAInit scAReq none
      = (.ok 1,
         { accounts := scAInit.accounts
         , transactions := [⟨1, "crv", "cash sale", 10⟩]
         , entries := [⟨1, 1, 1, 500, 0⟩, ⟨2, 1, 2, 0, 500⟩] }) := by
  norm_num [postTransaction, validOk, totalDebits, totalCredits, scAReq, scAInit,
    insertEntries, nextTxnId, nextEntryId, EntryInput.dAmt, EntryInput.cAmt]
  simp +decide

/-- The journal Scenario A leaves behind, in explicit form. -/
theorem scADb_eq :
    scADb = { accounts := scAInit.accounts
            , transactions := [⟨1, "crv", "cash sale", 10⟩]
            , entries := [⟨1, 1, 1, 500, 0⟩, ⟨2, 1, 2, 0, 500⟩] } := by
  rw [scADb, scA_post_eq]

/-! ## Claims -/

/-- C1: the claim says `GET /accounts/balance/:id` applies the per-type
normal-balance convention and that after Scenario A the asset account 1000
has balance +500. The route computes `SUM(credit) − SUM(debit)` uniformly
for every account type, so after the Scenario A posting succeeds it answers
−500 for the Cash account (and +500 for the revenue account, where the
uniform formula coincides with the convention); the per-type convention
modelled from the spec gives +500 for Cash. -/
theorem c1_scenarioA_cash_balance :
    (postTransaction scAInit scAReq none).1 = .ok 1
    ∧ computeBalance scADb 1 = -500
    ∧ computeBalanceSpec scADb 1 = some 500
    ∧ computeBalance scADb 2 = 500 := by
  rw [scADb_eq, scA_post_eq]
  refine ⟨rfl, ?_, ?_, ?_⟩
  · norm_num [computeBalance, balanceQuery, entriesFor, scAInit]
  · norm_num [computeBalanceSpec, entriesFor, scAInit, List.find?]
  · norm_num [computeBalance, balanceQuery, entriesFor, scAInit]

/-- C2: the claim says the `running_balance` of the last ledger row equals
the amount of `GET /accounts/balance/:id`. The ledger computes
`SUM(debit) − SUM(credit)` while the balance route computes
`SUM(credit) − SUM(debit)`: on the Scenario A journal the last ledger row
of the Cash account carries 500 while the balance route answers −500. -/
theorem c2_ledger_last_row_vs_balance :
    ((ledgerRows scADb 1).getLast?).map LedgerRow.running_balance = some 500
    ∧ computeBalance scADb 1 = -500 := by
  rw [scADb_eq]
  constructor
  · norm_num [ledgerRows, entriesFor, txnFor, ledgerLe, sortEntries, insertSorted,
      runningBalance, entryDate, List.find?, scAInit]
  · norm_num [computeBalance, balanceQuery, entriesFor, scAInit]

/-- C3: the claim says `POST /accounts/transactions` writes the transaction
row and its entry rows atomically and that any failure leaves the journal
unchanged. The route runs each `INSERT` as its own statement with no
surrounding SQL transaction: when the insert of the second entry fails, the
response is the 500 of the catch block, yet the journal now contains the
new transaction row and exactly one of its two entry rows. -/
theorem c3_midloop_failure_partial_write :
    (postTransaction scAInit scAReq (some 2)).1 = .serverError
    ∧ (postTransaction scAInit scAReq (some 2)).2.transactions
        = [⟨1, "crv", "cash sale", 10⟩]
    ∧ (postTransaction scAInit scAReq (some 2)).2.entries = [⟨1, 1, 1, 500, 0⟩]
    ∧ (postTransaction scAInit scAReq (some 2)).2 ≠ scAInit := by
  have heval : postTransaction scAInit scAReq (some 2)
      = (.serverError,
         { accounts := scAInit.accounts
         , transactions := [⟨1, "crv", "cash sale", 10⟩]
         , entries := [⟨1, 1, 1, 500, 0⟩] }) := by
    norm_num [postTransaction, validOk, totalDebits, totalCredits, scAReq, scAInit,
      insertEntries, nextTxnId, nextEntryId, EntryInput.dAmt, EntryInput.cAmt]
    simp +decide
  rw [heval]
  refine ⟨rfl, rfl, rfl, ?_⟩
  simp [scAInit]

/-- C4 (counterexample): the claim says the imbalance error carries both
computed totals. The route answers the fixed message
`Debits and credits must be equal for double entry` with no further
payload: two imbalanced postings with different totals produce literally
identical outcomes, so no function can read the totals back off the
outcome. -/
theorem c4_error_carries_no_totals :
    postTransaction scAInit reqImb1 none = postTransaction scAInit reqImb2 none
    ∧ (totalDebits reqImb1, totalCredits reqImb1)
        ≠ (totalDebits reqImb2, totalCredits reqImb2)
    ∧ (postTransaction scAInit reqImb1 none).1 = .imbalanceError
    ∧ ¬ ∃ f : PostResponse × DB → Rat × Rat,
        ∀ (db : DB) (req : PostRequest) (failAt : Option Nat),
          (postTransaction db req failAt).1 = .imbalanceError →
            f (postTransaction db req failAt) = (totalDebits req, totalCredits req) := by
  have h1 : postTransaction scAInit reqImb1 none = (.imbalanceError, scAInit) := by
    norm_num [postTransaction, validOk, totalDebits, totalCredits, reqImb1,
      EntryInput.dAmt, EntryInput.cAmt]
    simp +decide
  have h2 : postTransaction scAInit reqImb2 none = (.imbalanceError, scAInit) := by
    norm_num [postTransaction, validOk, totalDebits, totalCredits, reqImb2,
      EntryInput.dAmt, EntryInput.cAmt]
    simp +decide
  have t1 : (totalDebits reqImb1, totalCredits reqImb1) = ((500 : Rat), (400 : Rat)) := by
    norm_num [totalDebits, totalCredits, reqImb1, EntryInput.dAmt, EntryInput.cAmt]
  have t2 : (totalDebits reqImb2, totalCredits reqImb2) = ((300 : Rat), (100 : Rat)) := by
    norm_num [totalDebits, totalCredits, reqImb2, EntryInput.dAmt, EntryInput.cAmt]
  refine ⟨h1.trans h2.symm, ?_, by rw [h1], ?_⟩
  · rw [t1, t2]
    intro hcontra
    have := congrArg Prod.fst hcontra
    norm_num at this
  · rintro ⟨f, hf⟩
    have e1 := hf scAInit reqImb1 none (by rw [h1])
    have e2 := hf scAInit reqImb2 none (by rw [h2])
    rw [h1, t1] at e1
    rw [h2, t2] at e2
    have := e1.symm.trans e2
    have := congrArg Prod.fst this
    norm_num at this

/-- C4 (amended): the posting route answers the imbalance 400 exactly when
the body passes the express-validator checks and
`|sum(debit) − sum(credit)| > 0.01`, and in that case no journal row has
been written; the error payload is a fixed message and does not carry the
computed totals. -/
theorem c4_imbalance_error_iff (db : DB) (req : PostRequest) (failAt : Option Nat) :
    ((postTransaction db req failAt).1 = .imbalanceError ↔
      validOk req ∧ 1/100 < |totalDebits req - totalCredits req|)
    ∧ ((postTransaction db req failAt).1 = .imbalanceError →
        (postTransaction db req failAt).2 = db) := by
  by_cases hv : validOk req
  · by_cases himb : 1/100 < |totalDebits req - totalCredits req|
    · have he : postTransaction db req failAt = (.imbalanceError, db) := by
        rw [postTransaction, if_neg (not_not_intro hv), if_pos himb]
      rw [he]
      exact ⟨⟨fun _ => ⟨hv, himb⟩, fun _ => rfl⟩, fun _ => rfl⟩
    · have hne : (postTransaction db req failAt).1 ≠ .imbalanceError := by
        rw [postTransaction, if_neg (not_not_intro hv), if_neg himb]
        by_cases hfa : failAt = some 0
            ∨ allowedTxnTypes.contains req.transaction_type = false
        · rw [if_pos hfa]
          simp
        · rw [if_neg hfa]
          exact insertEntries_ne_imbalance _ _ _ _ _
      constructor
      · constructor
        · intro hcontra
          exact absurd hcontra hne
        · rintro ⟨_, hi⟩
          exact absurd hi himb
      · intro hcontra
        exact absurd hcontra hne
  · have he : postTransaction db req failAt = (.validationError, db) := by
      rw [postTransaction, if_pos hv]
    rw [he]
    constructor
    · constructor
      · intro hcontra
        exact absurd hcontra (by simp)
      · rintro ⟨h, _⟩
        exact absurd h hv
    · intro hcontra
      exact absurd hcontra (by simp)

/-- C4 (witness): Scenario B, a posting of debit 500 against credit 400, is
answered with the imbalance error and writes nothing. -/
theorem c4_imbalance_error_iff_witness :
    (postTransaction scAInit reqImb1 none).1 = .imbalanceError
    ∧ (postTransaction scAInit reqImb1 none).2 = scAInit := by
  have h := c4_imbalance_error_iff scAInit reqImb1 none
  have hcond : validOk reqImb1 ∧ 1/100 < |totalDebits reqImb1 - totalCredits reqImb1| := by
    constructor
    · decide
    · norm_num [totalDebits, totalCredits, reqImb1, EntryInput.dAmt, EntryInput.cAmt]
  exact ⟨h.1.mpr hcond, h.2 (h.1.mpr hcond)⟩

/-- C5 (counterexample): the claim says a request containing an entry with
both amounts non-zero, or with both zero, is rejected with a validation
error before any write. The route never inspects the per-entry shape: a
balanced request whose entries all violate the convention is accepted and
its three entry rows are written. -/
theorem c5_shape_violating_request_accepted :
    (∃ e ∈ reqShape.entries, e.dAmt ≠ 0 ∧ e.cAmt ≠ 0)
    ∧ (∃ e ∈ reqShape.entries, e.dAmt = 0 ∧ e.cAmt = 0)
    ∧ (postTransaction scAInit reqShape none).1 = .ok 1
    ∧ (postTransaction scAInit reqShape none).2.entries.length = 3 := by
  have heval : postTransaction scAInit reqShape none
      = (.ok 1,
         { accounts := scAInit.accounts
         , transactions := [⟨1, "jv", "odd shapes", 10⟩]
         , entries := [⟨1, 1, 1, 5, 5⟩, ⟨2, 1, 2, 5, 5⟩, ⟨3, 1, 2, 0, 0⟩] }) := by
    norm_num [postTransaction, validOk, totalDebits, totalCredits, reqShape, scAInit,
      insertEntries, nextTxnId, nextEntryId, EntryInput.dAmt, EntryInput.cAmt]
    simp +decide
  refine ⟨⟨⟨1, some 5, some 5⟩, ?_, ?_, ?_⟩, ⟨⟨2, some 0, some 0⟩, ?_, ?_, ?_⟩, ?_, ?_⟩
  · simp [reqShape]
  · norm_num [EntryInput.dAmt]
  · norm_num [EntryInput.cAmt]
  · simp [reqShape]
  · norm_num [EntryInput.dAmt]
  · norm_num [EntryInput.cAmt]
  · rw [heval]
  · rw [heval]
    rfl

/-- C5 (amended): the posting route applies no per-entry debit/credit shape
check at all: every request that passes the express-validator checks and
the totals check, names one of the five voucher codes as its type (the
schema `CHECK`), and references only existing accounts (the foreign key on
`account_id`) is accepted with one entry row written per input entry,
regardless of how the amounts are distributed inside each entry. -/
theorem c5_no_per_entry_shape_check (db : DB) (req : PostRequest)
    (hv : validOk req) (hb : |totalDebits req - totalCredits req| ≤ 1/100)
    (ht : allowedTxnTypes.contains req.transaction_type = true)
    (hacc : ∀ e ∈ req.entries, accountExists db e.account_id = true) :
    (postTransaction db req none).1 = .ok (nextTxnId db)
    ∧ (postTransaction db req none).2.entries.length
        = db.entries.length + req.entries.length := by
  have htm : req.transaction_type ∈ allowedTxnTypes := by simpa using ht
  rw [postTransaction]
  rw [if_neg (not_not_intro hv)]
  rw [if_neg (not_lt.mpr hb)]
  rw [if_neg (by simp [htm])]
  have h := insertEntries_none_spec (nextTxnId db) req.entries 1
    { db with transactions := db.transactions ++
        [{ id := nextTxnId db, transaction_type := req.transaction_type,
           description := req.description, date := req.date }] }
    (fun x hx => hacc x hx)
  exact ⟨h.1, h.2.1⟩

/-- C5 (witness): the shape-violating request of the counterexample passes
the other checks (its type `jv` is a voucher code and both referenced
accounts exist) and is accepted with all three entries written. -/
theorem c5_no_per_entry_shape_check_witness :
    (postTransaction scAInit reqShape none).1 = .ok (nextTxnId scAInit)
    ∧ (postTransaction scAInit reqShape none).2.entries.length
        = scAInit.entries.length + reqShape.entries.length :=
  c5_no_per_entry_shape_check scAInit reqShape (by decide)
    (by norm_num [totalDebits, totalCredits, reqShape, EntryInput.dAmt, EntryInput.cAmt])
    (by decide)
    (by simp +decide [reqShape, accountExists, scAInit])

/-- C6 (counterexample): the claim says the trial-balance result contains a
boolean field `balanced` that is true iff the totals agree within 0.01. The
`totals` object of the route holds only the three numeric fields
`total_debits`, `total_credits` and `net_difference`: on a journal whose
totals disagree by 500 there is still no `balanced` key at all. -/
theorem c6_no_balanced_field :
    (trialBalanceTotalsJson oneEntryDB).lookup "balanced" = none
    ∧ 1/100 < |tbTotalDebits oneEntryDB - tbTotalCredits oneEntryDB|
    ∧ ¬ ∃ b : Bool,
        (trialBalanceTotalsJson oneEntryDB).lookup "balanced" = some (.bool b)
          ∧ (b = true ↔
              |tbTotalDebits oneEntryDB - tbTotalCredits oneEntryDB| ≤ 1/100) := by
  have hlk : (trialBalanceTotalsJson oneEntryDB).lookup "balanced" = none := by
    simp +decide [trialBalanceTotalsJson, List.lookup]
  refine ⟨hlk, ?_, ?_⟩
  · norm_num [tbTotalDebits, tbTotalCredits, trialBalanceRows, accountDebits,
      accountCredits, entriesFor, oneEntryDB]
  · rintro ⟨b, hb, _⟩
    rw [hlk] at hb
    exact Option.noConfusion hb

/-- C6 (amended): the trial-balance result reports the state of the books
through the numeric field `net_difference = total_credits − total_debits`
(never thrown as an error) and carries no `balanced` field; the totals are
the debit and credit sums over all entries belonging to listed accounts,
and the 0.01 comparison of the claim can be carried out on
`net_difference`, since a difference and its negation have the same
absolute value. -/
theorem c6_trial_balance_net_difference (db : DB)
    (h : (db.accounts.map Account.id).Nodup) :
    (trialBalanceTotalsJson db).lookup "net_difference"
        = some (.num (tbTotalCredits db - tbTotalDebits db))
    ∧ (trialBalanceTotalsJson db).lookup "balanced" = none
    ∧ tbTotalDebits db
        = ((db.entries.filter
              (fun e => (db.accounts.map Account.id).contains e.account_id)).map
            Entry.debit_amount).sum
    ∧ tbTotalCredits db
        = ((db.entries.filter
              (fun e => (db.accounts.map Account.id).contains e.account_id)).map
            Entry.credit_amount).sum
    ∧ (|tbTotalDebits db - tbTotalCredits db| ≤ 1/100
        ↔ |tbTotalCredits db - tbTotalDebits db| ≤ 1/100) := by
  refine ⟨?_, ?_, ?_, ?_, ?_⟩
  · simp +decide [trialBalanceTotalsJson, List.lookup]
  · simp +decide [trialBalanceTotalsJson, List.lookup]
  · rw [tbTotalDebits]
    have hrows : (trialBalanceRows db).map TBRow.total_debits
        = db.accounts.map (fun a =>
            ((db.entries.filter (fun e => e.account_id == a.id)).map
              Entry.debit_amount).sum) := by
      simp [trialBalanceRows, accountDebits, entriesFor, List.map_map, Function.comp]
    rw [hrows, sum_over_accounts _ _ _ h]
  · rw [tbTotalCredits]
    have hrows : (trialBalanceRows db).map TBRow.total_credits
        = db.accounts.map (fun a =>
            ((db.entries.filter (fun e => e.account_id == a.id)).map
              Entry.credit_amount).sum) := by
      simp [trialBalanceRows, accountCredits, entriesFor, List.map_map, Function.comp]
    rw [hrows, sum_over_accounts _ _ _ h]
  · rw [abs_sub_comm]

/-- C6 (witness): the relation evaluated on the concrete unbalanced
journal. -/
theorem c6_trial_balance_net_difference_witness :
    (trialBalanceTotalsJson oneEntryDB).lookup "net_difference"
        = some (.num (tbTotalCredits oneEntryDB - tbTotalDebits oneEntryDB))
    ∧ (trialBalanceTotalsJson oneEntryDB).lookup "balanced" = none :=
  ⟨(c6_trial_balance_net_difference oneEntryDB (by decide)).1,
   (c6_trial_balance_net_difference oneEntryDB (by decide)).2.1⟩

/-- C7 (counterexample): the claim says the balance-sheet report checks
`total_assets == total_liabilities + total_equity` within tolerance and
returns the outcome as an explicit integrity flag. On a journal where the
invariant fails by 500 the `totals` object still holds only the four
numeric fields — no key of the response carries any boolean at all, so no
field can be the outcome of the check. -/
theorem c7_no_integrity_flag :
    1/100 < |totalAssets oneEntryDB
        - (totalLiabilities oneEntryDB + totalEquity oneEntryDB)|
    ∧ ¬ ∃ (k : String) (b : Bool),
        (k, JVal.bool b) ∈ balanceSheetTotalsJson oneEntryDB := by
  constructor
  · have ha : totalAssets oneEntryDB = 500 := by
      simp +decide [totalAssets, accountsOfType, debitMinusCredit,
        accountDebits, accountCredits, entriesFor, oneEntryDB]
    have hl : totalLiabilities oneEntryDB = 0 := by
      simp +decide [totalLiabilities, accountsOfType, creditMinusDebit,
        accountDebits, accountCredits, entriesFor, oneEntryDB]
    have hq : totalEquity oneEntryDB = 0 := by
      simp +decide [totalEquity, accountsOfType, creditMinusDebit,
        accountDebits, accountCredits, entriesFor, oneEntryDB]
    rw [ha, hl, hq]
    norm_num
  · rintro ⟨k, b, hin⟩
    simp [balanceSheetTotalsJson] at hin

/-- C7 (amended): the balance-sheet response returns the four numeric
totals — assets as `debit − credit` over asset accounts, liabilities and
equity as `credit − debit`, and `total_liabilities_and_equity` as their
sum — and contains no boolean integrity flag; the invariant outcome is not
computed, the caller has to compare the two numeric fields. Nothing is
thrown and nothing is corrected: the totals are exactly the per-entry sums
shown. -/
theorem c7_balance_sheet_totals (db : DB)
    (h : (db.accounts.map Account.id).Nodup) :
    (balanceSheetTotalsJson db).lookup "total_assets" = some (.num (totalAssets db))
    ∧ (balanceSheetTotalsJson db).lookup "total_liabilities_and_equity"
        = some (.num (totalLiabilities db + totalEquity db))
    ∧ totalAssets db
        = ((db.entries.filter (fun e =>
              ((accountsOfType db .asset).map Account.id).contains e.account_id)).map
            (fun e => e.debit_amount - e.credit_amount)).sum
    ∧ totalLiabilities db
        = ((db.entries.filter (fun e =>
              ((accountsOfType db .liability).map Account.id).contains e.account_id)).map
            (fun e => e.credit_amount - e.debit_amount)).sum
    ∧ totalEquity db
        = ((db.entries.filter (fun e =>
              ((accountsOfType db .equity).map Account.id).contains e.account_id)).map
            (fun e => e.credit_amount - e.debit_amount)).sum
    ∧ ¬ ∃ (k : String) (b : Bool), (k, JVal.bool b) ∈ balanceSheetTotalsJson db := by
  have hnd : ∀ t : AccountType, ((accountsOfType db t).map Account.id).Nodup := by
    intro t
    have hsub : ((accountsOfType db t).map Account.id).Sublist
        (db.accounts.map Account.id) := (List.filter_sublist _).map _
    exact h.sublist hsub
  refine ⟨?_, ?_, ?_, ?_, ?_, ?_⟩
  · simp +decide [balanceSheetTotalsJson, List.lookup]
  · simp +decide [balanceSheetTotalsJson, List.lookup]
  · rw [totalAssets]
    have hmap : (accountsOfType db .asset).map (fun a => debitMinusCredit db a.id)
        = (accountsOfType db .asset).map (fun a =>
            ((db.entries.filter (fun e => e.account_id == a.id)).map
              (fun e => e.debit_amount - e.credit_amount)).sum) := by
      apply List.map_congr_left
      intro a _
      rw [debitMinusCredit, accountDebits, accountCredits, entriesFor, sum_map_sub]
    rw [hmap, sum_over_accounts _ _ _ (hnd .asset)]
  · rw [totalLiabilities]
    have hmap : (accountsOfType db .liability).map (fun a => creditMinusDebit db a.id)
        = (accountsOfType db .liability).map (fun a =>
            ((db.entries.filter (fun e => e.account_id == a.id)).map
              (fun e => e.credit_amount - e.debit_amount)).sum) := by
      apply List.map_congr_left
      intro a _
      rw [creditMinusDebit, accountDebits, accountCredits, entriesFor, sum_map_sub]
    rw [hmap, sum_over_accounts _ _ _ (hnd .liability)]
  · rw [totalEquity]
    have hmap : (accountsOfType db .equity).map (fun a => creditMinusDebit db a.id)
        = (accountsOfType db .equity).map (fun a =>
            ((db.entries.filter (fun e => e.account_id == a.id)).map
              (fun e => e.credit_amount - e.debit_amount)).sum) := by
      apply List.map_congr_left
      intro a _
      rw [creditMinusDebit, accountDebits, accountCredits, entriesFor, sum_map_sub]
    rw [hmap, sum_over_accounts _ _ _ (hnd .equity)]
  · rintro ⟨k, b, hin⟩
    simp [balanceSheetTotalsJson] at hin

/-- C7 (witness): the totals relation evaluated on the concrete journal. -/
theorem c7_balance_sheet_totals_witness :
    (balanceSheetTotalsJson oneEntryDB).lookup "total_assets"
        = some (.num (totalAssets oneEntryDB))
    ∧ (balanceSheetTotalsJson oneEntryDB).lookup "total_liabilities_and_equity"
        = some (.num (totalLiabilities oneEntryDB + totalEquity oneEntryDB)) :=
  ⟨(c7_balance_sheet_totals oneEntryDB (by decide)).1,
   (c7_balance_sheet_totals oneEntryDB (by decide)).2.1⟩

set_option maxRecDepth 8000 in
/-- C8: the claim says the income-statement result always satisfies
`net_income = total_revenue − total_expenses`. The route cannot produce a
result at all: both of its SQL strings, with or without a date range, open
a quoted literal before `revenue` / `expense` and never close it (the
template literal ends right after the word), so every request fails in the
query and is answered by the 500 of the catch block. The parallel query of
the balance-sheet route closes its quote, confirming that the counting
detects exactly the defect. -/
theorem c8_income_statement_sql_broken :
    hasUnterminatedLiteral (revenueQuery false) = true
    ∧ hasUnterminatedLiteral (revenueQuery true) = true
    ∧ hasUnterminatedLiteral (expenseQuery false) = true
    ∧ hasUnterminatedLiteral (expenseQuery true) = true
    ∧ hasUnterminatedLiteral assetsQuery = false := by
  refine ⟨?_, ?_, ?_, ?_, ?_⟩ <;> decide

/-- C9 (counterexample): the claim says an account with zero referencing
entries is removed. On a journal with no entries at all where account 1 is
the parent of account 2, the `DELETE` of account 1 hits the
self-referencing foreign key on `parent_account_id`, is answered with the
500 of the catch block, and the account stays in place. -/
theorem c9_parent_fk_blocks_delete :
    entriesFor parentDB 1 = []
    ∧ deleteAccount parentDB 1 = (.serverError, parentDB)
    ∧ (deleteAccount parentDB 1).1 ≠ .removed := by
  have hent : entriesFor parentDB 1 = [] := by
    simp +decide [entriesFor, parentDB]
  have hdel : deleteAccount parentDB 1 = (.serverError, parentDB) := by
    rw [deleteAccount, if_neg (by rw [hent]; simp)]
    simp +decide [parentDB]
  refine ⟨hent, hdel, ?_⟩
  rw [hdel]
  simp

/-- C9 (amended): the delete route refuses with the conflict 400 and leaves
the store untouched whenever at least one entry references the account;
with no referencing entry it removes exactly the rows of that account id
from the `accounts` table — keeping every other account and all journal
rows — provided no surviving account names the deleted id as
`parent_account_id`; when one does, the self-referencing foreign key makes
the `DELETE` fail, the route answers 500 and the store is unchanged. -/
theorem c9_delete_account_checked (db : DB) (accId : Nat) :
    ((∃ e ∈ db.entries, e.account_id = accId) →
        deleteAccount db accId = (.conflictError, db))
    ∧ ((∀ e ∈ db.entries, e.account_id ≠ accId) →
        (∃ a ∈ db.accounts, a.id ≠ accId ∧ a.parent_account_id = some accId) →
        deleteAccount db accId = (.serverError, db))
    ∧ ((∀ e ∈ db.entries, e.account_id ≠ accId) →
        (∀ a ∈ db.accounts, a.id ≠ accId → a.parent_account_id ≠ some accId) →
        (deleteAccount db accId).1 = .removed
        ∧ (∀ a ∈ (deleteAccount db accId).2.accounts, a.id ≠ accId)
        ∧ (∀ a ∈ db.accounts, a.id ≠ accId → a ∈ (deleteAccount db accId).2.accounts)
        ∧ (deleteAccount db accId).2.entries = db.entries
        ∧ (deleteAccount db accId).2.transactions = db.transactions) := by
  have hmem : ∀ e : Entry, e ∈ entriesFor db accId ↔ e ∈ db.entries ∧ e.account_id = accId := by
    intro e
    simp [entriesFor]
  have hnoent : (∀ e ∈ db.entries, e.account_id ≠ accId) →
      ¬ 0 < (entriesFor db accId).length := by
    intro hnone
    cases hE : entriesFor db accId with
    | nil => simp
    | cons e es =>
      have hin : e ∈ entriesFor db accId := by
        rw [hE]
        exact List.mem_cons_self _ _
      have h2 := (hmem e).mp hin
      exact absurd h2.2 (hnone e h2.1)
  refine ⟨?_, ?_, ?_⟩
  · rintro ⟨e, he, hacc⟩
    have hpos : 0 < (entriesFor db accId).length :=
      List.length_pos_of_mem ((hmem e).mpr ⟨he, hacc⟩)
    rw [deleteAccount, if_pos hpos]
  · rintro hnone ⟨a, ha, hne, hpar⟩
    rw [deleteAccount, if_neg (hnoent hnone)]
    have hany : (db.accounts.filter (fun a => !(a.id == accId))).any
        (fun a => a.parent_account_id == some accId) = true := by
      simp only [List.any_eq_true, List.mem_filter]
      exact ⟨a, ⟨ha, by simp [hne]⟩, by simp [hpar]⟩
    rw [if_pos hany]
  · intro hnone hpar
    rw [deleteAccount, if_neg (hnoent hnone)]
    have hany : (db.accounts.filter (fun a => !(a.id == accId))).any
        (fun a => a.parent_account_id == some accId) = false := by
      rw [List.any_eq_false]
      intro a ha
      rw [List.mem_filter] at ha
      have hne : a.id ≠ accId := by simpa using ha.2
      simp [hpar a ha.1 hne]
    rw [if_neg (by simp [hany])]
    refine ⟨rfl, ?_, ?_, rfl, rfl⟩
    · intro a ha
      simp at ha
      exact ha.2
    · intro a ha hne
      simp
      exact ⟨ha, hne⟩

/-- C9 (witness): on the concrete journals, deleting the referenced account
1 is refused with the store unchanged; deleting the entry-free parent
account trips the foreign key and is answered 500 with the store unchanged;
deleting the unreferenced, unparented account 2 succeeds. -/
theorem c9_delete_account_checked_witness :
    deleteAccount oneEntryDB 1 = (.conflictError, oneEntryDB)
    ∧ deleteAccount parentDB 1 = (.serverError, parentDB)
    ∧ (deleteAccount oneEntryDB 2).1 = .removed := by
  refine ⟨?_, ?_, ?_⟩
  · exact (c9_delete_account_checked oneEntryDB 1).1
      ⟨⟨1, 1, 1, 500, 0⟩, by simp [oneEntryDB], rfl⟩
  · refine (c9_delete_account_checked parentDB 1).2.1 ?_ ?_
    · intro e he
      simp [parentDB] at he
    · refine ⟨⟨2, "1100", "Petty Cash", .asset, some 1⟩, by simp [parentDB], by decide, rfl⟩
  · refine ((c9_delete_account_checked oneEntryDB 2).2.2 ?_ ?_).1
    · intro e he
      simp [oneEntryDB] at he
      rw [he]
      decide
    · intro a ha hne
      simp [oneEntryDB] at ha
      rcases ha with h | h <;> rw [h] <;> decide

/-- C10: for an account with no referencing entry the balance query yields
the SQL `NULL` (empty aggregate), which the route coerces with
`balance || 0` into the number 0 in the response — never an error and
never a null balance field. -/
theorem c10_zero_entries_balance_zero (db : DB) (a : Account)
    (ha : a ∈ db.accounts) (h : entriesFor db a.id = []) :
    balanceQuery db a.id = none ∧ computeBalance db a.id = 0 := by
  have hq : balanceQuery db a.id = none := by
    rw [balanceQuery, h]
  refine ⟨hq, ?_⟩
  rw [computeBalance, hq]
  rfl

/-- C10 (witness): account 2 of the concrete journal has no entries and its
balance is reported as 0. -/
theorem c10_zero_entries_balance_zero_witness :
    balanceQuery oneEntryDB 2 = none ∧ computeBalance oneEntryDB 2 = 0 :=
  c10_zero_entries_balance_zero oneEntryDB ⟨2, "2000", "Payable", .liability, none⟩
    (by simp [oneEntryDB]) (by simp +decide [entriesFor, oneEntryDB])

end SmartLogistic
